import Mathlib

/-!
Verification of the tmt-web asynchronous task lifecycle and result
materialization protocol.

This development shallowly embeds the Python sources of the repository:

* `src/tmt_web/utils/task_manager.py` — the Task Store and the background
  task wrapper (`create_task`, `get_task_info`, `update_task`,
  `execute_task` / `task_wrapper`);
* `src/tmt_web/api.py` — the request handler pieces `_validate_parameters`,
  `_handle_task_result` and `_to_task_out`;
* `src/tmt_web/formatters.py` — `serialize_data`, `deserialize_data`,
  `format_data`;
* `src/tmt_web/models.py` — the pydantic models `FmfIdData`, `TestData`,
  `PlanData`, `TestPlanData`.

Modelling conventions:

* JSON documents are modelled by their parse trees (`Json` below); a Python
  string that is fed to `json.loads` is modelled by a `StoredValue`, the
  pair of its raw text and its parse result (`none` when `json.loads`
  would raise `JSONDecodeError`).
* Machine-generated identifiers (uuid4) and wall-clock timestamps are
  passed in explicitly; uuid4 identifiers are assumed fresh, so the Valkey
  store is modelled per key as an `Option TaskInfo` cell (`none` = the key
  is absent or expired).
* Python functions that raise are embedded as `Except String _` values,
  the error carrying `str(exception)`.
-/

namespace TmtWeb

/-- Parse tree of a JSON document.  Python dicts keep insertion order and
have unique keys; an object is modelled as its key/value list. -/
inductive Json where
  | null
  | str (s : String)
  | num (n : Int)
  | bool (b : Bool)
  | arr (elems : List Json)
  | obj (fields : List (String × Json))

/-- Python `key in data` on a parsed JSON dict (false on non-dicts; on any
non-dict input every subsequent `model_validate` call fails, so the branch
chosen by the membership test is observationally irrelevant). -/
def Json.hasKey (j : Json) (k : String) : Bool :=
  match j with
  | .obj kvs => kvs.any (fun kv => kv.fst == k)
  | _ => false

/-- Python `data[key]` / pydantic field lookup on a parsed JSON dict:
`none` when the key is absent or the value is not a dict. -/
def Json.getKey? (j : Json) (k : String) : Option Json :=
  match j with
  | .obj kvs => (kvs.find? (fun kv => kv.fst == k)).map Prod.snd
  | _ => none

/-! ## Task manager (`src/tmt_web/utils/task_manager.py`)

Task status constants `PENDING`/`STARTED`/`SUCCESS`/`FAILURE` become the
constructors of `TaskStatus`. -/

inductive TaskStatus where
  | pending
  | started
  | success
  | failure
deriving DecidableEq, Repr

/-- A stored task record, the JSON dict written by `create_task` and
`update_task`.  `updatedAt` is `none` until the first update (the initial
record has no `updated_at` key).  `result` is the task's return value
(`none` both for an absent key and for a stored JSON `null`; `update_task`
never distinguishes the two because a `None` result is never written). -/
structure TaskInfo where
  id : String
  status : TaskStatus
  createdAt : Nat
  updatedAt : Option Nat
  result : Option Json
  error : Option String

/-- `TaskManager.create_task`: the fresh record stored under the new id.
The uuid4 identifier and the `datetime.now()` timestamp are parameters. -/
def create_task (id : String) (now : Nat) : TaskInfo :=
  { id := id
    status := .pending
    createdAt := now
    updatedAt := none
    result := none
    error := none }

/-- `TaskManager.update_task` acting on the store cell of one task id.
If the key is absent the update is a no-op (the code logs and returns).
Otherwise `status` is overwritten, `result` and `error` are overwritten
only when the corresponding argument is not `None`, and `updated_at` is
refreshed.  The stored record is a well-formed dict produced by this
module, so the `json.JSONDecodeError`/`TypeError`/`ValueError` handlers
(which leave the store unchanged) are unreachable in the model. -/
def update_task (status : TaskStatus) (result : Option Json)
    (error : Option String) (now : Nat) :
    Option TaskInfo → Option TaskInfo
  | none => none
  | some t =>
    some { t with
      status := status
      result := match result with
        | some r => some r
        | none => t.result
      error := match error with
        | some e => some e
        | none => t.error
      updatedAt := some now }

/-- The client-visible view returned by `TaskManager.get_task_info`: either
the stored record or the synthesized not-found record (which carries no
timestamps). -/
structure TaskView where
  id : String
  status : TaskStatus
  result : Option Json
  error : Option String
  createdAt : Option Nat
  updatedAt : Option Nat

/-- `TaskManager.get_task_info`: a total function — an absent or expired id
yields the synthesized `FAILURE` view rather than an error. -/
def get_task_info (id : String) : Option TaskInfo → TaskView
  | none =>
    { id := id
      status := .failure
      result := none
      error := some "Task not found"
      createdAt := none
      updatedAt := none }
  | some t =>
    { id := t.id
      status := t.status
      result := t.result
      error := t.error
      createdAt := some t.createdAt
      updatedAt := t.updatedAt }

/-- The body of the `task_wrapper` closure defined in
`TaskManager.execute_task`.  The unit of work `func(**kwargs)` is embedded
as `func : κ → Except String (Option Json)`: a normal return carries the
returned value (`none` for Python `None`), an exception carries
`str(exc)`.  The wrapper is a total function — every exception from the
work is converted into a `FAILURE` update and nothing propagates. -/
def task_wrapper {κ : Type} (func : κ → Except String (Option Json))
    (kwargs : κ) (tStart tEnd : Nat) (s : Option TaskInfo) : Option TaskInfo :=
  let s1 := update_task .started none none tStart s
  match func kwargs with
  | .ok v => update_task .success v none tEnd s1
  | .error e => update_task .failure none (some e) tEnd s1

/-- `TaskManager.execute_task`: creates the task, enqueues the wrapper and
returns immediately.  The result triple is (returned task id, store cell
at return time, queued wrapper).  The store cell at return time is the
freshly created record — the work has not run yet. -/
def execute_task {κ : Type} (id : String) (now : Nat)
    (func : κ → Except String (Option Json)) (kwargs : κ) :
    String × Option TaskInfo × (Nat → Nat → Option TaskInfo → Option TaskInfo) :=
  let s0 := some (create_task id now)
  (id, s0, fun tStart tEnd s => task_wrapper func kwargs tStart tEnd s)

/-! ### Reachable states of one task record

For a single task id the only writers are `create_task` (once, at
submission) and the id's one `task_wrapper` run, which performs its
updates in program order: the `STARTED` update, then exactly one terminal
update chosen by the outcome of the work.  Valkey expiry may drop the
record at any point.  `WStep`/`Reach` formalize exactly this step
relation. -/

/-- Progress of the task's single wrapper run. -/
inductive Phase where
  | created
  | running
  | done
deriving DecidableEq, Repr

/-- One step on the store cell of a task whose work has outcome `o`:
the wrapper's `STARTED` update, the wrapper's terminal update (matching
`o`), or expiry removing the record. -/
inductive WStep (o : Except String (Option Json)) :
    Phase × Option TaskInfo → Phase × Option TaskInfo → Prop where
  | start (t : Nat) (s : Option TaskInfo) :
      WStep o (.created, s) (.running, update_task .started none none t s)
  | finishOk (v : Option Json) (t : Nat) (s : Option TaskInfo) :
      o = .ok v →
      WStep o (.running, s) (.done, update_task .success v none t s)
  | finishErr (e : String) (t : Nat) (s : Option TaskInfo) :
      o = .error e →
      WStep o (.running, s) (.done, update_task .failure none (some e) t s)
  | expire (p : Phase) (s : Option TaskInfo) :
      WStep o (p, s) (p, none)

/-- States of one task's store cell reachable from its creation under the
wrapper-driven updates (and expiry). -/
inductive Reach (o : Except String (Option Json)) (id : String) (c : Nat) :
    Phase × Option TaskInfo → Prop where
  | init : Reach o id c (.created, some (create_task id c))
  | step {ps ps' : Phase × Option TaskInfo} :
      Reach o id c ps → WStep o ps ps' → Reach o id c ps'

/-- The claim's partial order on statuses:
`PENDING < STARTED < {SUCCESS, FAILURE}`, the two terminal statuses
incomparable. -/
def statusLe : TaskStatus → TaskStatus → Bool
  | .pending, _ => true
  | .started, .pending => false
  | .started, _ => true
  | .success, .success => true
  | .failure, .failure => true
  | _, _ => false

/-- Terminal statuses. -/
def isTerminal : TaskStatus → Bool
  | .success => true
  | .failure => true
  | _ => false

/-- Exact shape of every reachable store cell, by phase: before the wrapper
runs the cell holds the fresh record (or nothing, after expiry); after the
`STARTED` update it holds the started record; after the terminal update it
holds the terminal record matching the work's outcome. -/
def StoreInv (o : Except String (Option Json)) (id : String) (c : Nat) :
    Phase → Option TaskInfo → Prop
  | .created, s => s = none ∨ s = some (create_task id c)
  | .running, s => s = none ∨ ∃ t1,
      s = some { create_task id c with status := .started, updatedAt := some t1 }
  | .done, s => s = none ∨
      (∃ v t2, o = .ok v ∧
        s = some { create_task id c with
          status := .success, result := v, updatedAt := some t2 }) ∨
      (∃ e t2, o = .error e ∧
        s = some { create_task id c with
          status := .failure, error := some e, updatedAt := some t2 })

/-! ## Data models (`src/tmt_web/models.py`)

The pydantic models, with `dict[str, Any]` fields modelled as JSON object
field lists and `list[dict[str, Any]]` fields as lists of those.  Fields
typed `X | None` with default `None` become `Option` fields. -/

/-- Raw fmf-id data model. -/
structure FmfIdData where
  name : String
  url : Option String
  path : Option String
  ref : Option String

/-- Raw test data model.  `fmf_id` is serialized under the alias
`fmf-id`. -/
structure TestData where
  name : String
  summary : Option String
  description : Option String
  contact : Option (List String)
  component : Option (List String)
  enabled : Option Bool
  environment : Option (List (String × Json))
  duration : Option String
  framework : Option String
  manual : Option Bool
  path : Option String
  tier : Option String
  order : Option Int
  id : Option String
  link : Option (List (List (String × Json)))
  tag : Option (List String)
  fmf_id : Option FmfIdData
  extra_data : Option (List (String × Json))

/-- Raw plan data model. -/
structure PlanData where
  name : String
  summary : Option String
  description : Option String
  prepare : Option (List (List (String × Json)))
  execute : Option (List (List (String × Json)))
  finish : Option (List (List (String × Json)))
  discover : Option (List (String × Json))
  provision : Option (List (String × Json))
  report : Option (List (String × Json))
  enabled : Option Bool
  path : Option String
  order : Option Int
  id : Option String
  link : Option (List (List (String × Json)))
  tag : Option (List String)
  fmf_id : Option FmfIdData
  extra_data : Option (List (String × Json))

/-- Combined test and plan data model. -/
structure TestPlanData where
  test : TestData
  plan : PlanData

/-- The union `TestData | PlanData | TestPlanData` used throughout
`formatters.py`. -/
inductive ModelData where
  | test (t : TestData)
  | plan (p : PlanData)
  | testPlan (tp : TestPlanData)

/-! ### Serialization (`model_dump_json(by_alias=True)`)

Pydantic's `model_dump_json` emits every field (including those holding
`None`, which become JSON `null`) under its alias.  The JSON text is
modelled by its parse tree. -/

/-- JSON value of an optional string field. -/
def jsonOfOptStr : Option String → Json
  | none => .null
  | some s => .str s

/-- JSON value of an optional bool field. -/
def jsonOfOptBool : Option Bool → Json
  | none => .null
  | some b => .bool b

/-- JSON value of an optional int field. -/
def jsonOfOptInt : Option Int → Json
  | none => .null
  | some n => .num n

/-- JSON value of an optional `list[str]` field. -/
def jsonOfOptStrList : Option (List String) → Json
  | none => .null
  | some xs => .arr (xs.map .str)

/-- JSON value of an optional `dict[str, Any]` field. -/
def jsonOfOptDict : Option (List (String × Json)) → Json
  | none => .null
  | some kvs => .obj kvs

/-- JSON value of an optional `list[dict[str, Any]]` field. -/
def jsonOfOptDictList : Option (List (List (String × Json))) → Json
  | none => .null
  | some ds => .arr (ds.map .obj)

/-- Dump of an `FmfIdData` sub-record. -/
def FmfIdData.toJson (f : FmfIdData) : Json :=
  .obj [("name", .str f.name), ("url", jsonOfOptStr f.url),
        ("path", jsonOfOptStr f.path), ("ref", jsonOfOptStr f.ref)]

/-- JSON value of an optional `FmfIdData` field. -/
def jsonOfOptFmfId : Option FmfIdData → Json
  | none => .null
  | some f => f.toJson

/-- Dump of a `TestData` record with `by_alias=True`. -/
def TestData.toJson (t : TestData) : Json :=
  .obj [("name", .str t.name),
        ("summary", jsonOfOptStr t.summary),
        ("description", jsonOfOptStr t.description),
        ("contact", jsonOfOptStrList t.contact),
        ("component", jsonOfOptStrList t.component),
        ("enabled", jsonOfOptBool t.enabled),
        ("environment", jsonOfOptDict t.environment),
        ("duration", jsonOfOptStr t.duration),
        ("framework", jsonOfOptStr t.framework),
        ("manual", jsonOfOptBool t.manual),
        ("path", jsonOfOptStr t.path),
        ("tier", jsonOfOptStr t.tier),
        ("order", jsonOfOptInt t.order),
        ("id", jsonOfOptStr t.id),
        ("link", jsonOfOptDictList t.link),
        ("tag", jsonOfOptStrList t.tag),
        ("fmf-id", jsonOfOptFmfId t.fmf_id),
        ("extra_data", jsonOfOptDict t.extra_data)]

/-- Dump of a `PlanData` record with `by_alias=True`. -/
def PlanData.toJson (p : PlanData) : Json :=
  .obj [("name", .str p.name),
        ("summary", jsonOfOptStr p.summary),
        ("description", jsonOfOptStr p.description),
        ("prepare", jsonOfOptDictList p.prepare),
        ("execute", jsonOfOptDictList p.execute),
        ("finish", jsonOfOptDictList p.finish),
        ("discover", jsonOfOptDict p.discover),
        ("provision", jsonOfOptDict p.provision),
        ("report", jsonOfOptDict p.report),
        ("enabled", jsonOfOptBool p.enabled),
        ("path", jsonOfOptStr p.path),
        ("order", jsonOfOptInt p.order),
        ("id", jsonOfOptStr p.id),
        ("link", jsonOfOptDictList p.link),
        ("tag", jsonOfOptStrList p.tag),
        ("fmf-id", jsonOfOptFmfId p.fmf_id),
        ("extra_data", jsonOfOptDict p.extra_data)]

/-- `serialize_data` from `formatters.py`: dump the model to JSON with
aliases (a `TestPlanData` dumps as an object with `test` and `plan`
keys). -/
def serialize_data : ModelData → Json
  | .test t => t.toJson
  | .plan p => p.toJson
  | .testPlan tp => .obj [("test", tp.test.toJson), ("plan", tp.plan.toJson)]

/-! ### Validation (`Model.model_validate`)

The pydantic validators, embedded for inputs of the declared JSON shapes:
an absent key or JSON `null` yields `None` for an optional field, a value
of the declared type is taken as is, anything else is a validation error.
(Pydantic's lax-mode coercions between primitive types are not modelled;
serialized model dumps only carry values of the declared types.)  Extra
keys are ignored, as in pydantic's default config. -/

/-- Required `str` field. -/
def parseReqStr : Option Json → Except String String
  | some (.str s) => .ok s
  | some _ => .error "Input should be a valid string"
  | none => .error "Field required"

/-- Optional `str` field. -/
def parseOptStr : Option Json → Except String (Option String)
  | none => .ok none
  | some .null => .ok none
  | some (.str s) => .ok (some s)
  | some _ => .error "Input should be a valid string"

/-- Optional `bool` field. -/
def parseOptBool : Option Json → Except String (Option Bool)
  | none => .ok none
  | some .null => .ok none
  | some (.bool b) => .ok (some b)
  | some _ => .error "Input should be a valid boolean"

/-- Optional `int` field. -/
def parseOptInt : Option Json → Except String (Option Int)
  | none => .ok none
  | some .null => .ok none
  | some (.num n) => .ok (some n)
  | some _ => .error "Input should be a valid integer"

/-- Elements of a `list[str]` value. -/
def parseStrElems : List Json → Except String (List String)
  | [] => .ok []
  | .str s :: rest => (parseStrElems rest).map (s :: ·)
  | _ :: _ => .error "Input should be a valid string"

/-- Optional `list[str]` field. -/
def parseOptStrList : Option Json → Except String (Option (List String))
  | none => .ok none
  | some .null => .ok none
  | some (.arr xs) => (parseStrElems xs).map some
  | some _ => .error "Input should be a valid list"

/-- Optional `dict[str, Any]` field. -/
def parseOptDict : Option Json → Except String (Option (List (String × Json)))
  | none => .ok none
  | some .null => .ok none
  | some (.obj kvs) => .ok (some kvs)
  | some _ => .error "Input should be a valid dictionary"

/-- Elements of a `list[dict[str, Any]]` value. -/
def parseDictElems : List Json → Except String (List (List (String × Json)))
  | [] => .ok []
  | .obj kvs :: rest => (parseDictElems rest).map (kvs :: ·)
  | _ :: _ => .error "Input should be a valid dictionary"

/-- Optional `list[dict[str, Any]]` field. -/
def parseOptDictList :
    Option Json → Except String (Option (List (List (String × Json))))
  | none => .ok none
  | some .null => .ok none
  | some (.arr xs) => (parseDictElems xs).map some
  | some _ => .error "Input should be a valid list"

/-- `FmfIdData.model_validate`. -/
def validateFmfId (j : Json) : Except String FmfIdData := do
  let name ← parseReqStr (j.getKey? "name")
  let url ← parseOptStr (j.getKey? "url")
  let path ← parseOptStr (j.getKey? "path")
  let ref ← parseOptStr (j.getKey? "ref")
  .ok { name := name, url := url, path := path, ref := ref }

/-- Optional `FmfIdData` field. -/
def parseOptFmfId : Option Json → Except String (Option FmfIdData)
  | none => .ok none
  | some .null => .ok none
  | some j => (validateFmfId j).map some

/-- Field lookup honoring `populate_by_name=True`: the alias is accepted
alongside the field name (the alias takes priority). -/
def aliasLookup (j : Json) (al nm : String) : Option Json :=
  match j.getKey? al with
  | some v => some v
  | none => j.getKey? nm

/-- `TestData.model_validate`. -/
def validateTestData (j : Json) : Except String TestData := do
  let name ← parseReqStr (j.getKey? "name")
  let summary ← parseOptStr (j.getKey? "summary")
  let description ← parseOptStr (j.getKey? "description")
  let contact ← parseOptStrList (j.getKey? "contact")
  let component ← parseOptStrList (j.getKey? "component")
  let enabled ← parseOptBool (j.getKey? "enabled")
  let environment ← parseOptDict (j.getKey? "environment")
  let duration ← parseOptStr (j.getKey? "duration")
  let framework ← parseOptStr (j.getKey? "framework")
  let manual ← parseOptBool (j.getKey? "manual")
  let path ← parseOptStr (j.getKey? "path")
  let tier ← parseOptStr (j.getKey? "tier")
  let order ← parseOptInt (j.getKey? "order")
  let id ← parseOptStr (j.getKey? "id")
  let link ← parseOptDictList (j.getKey? "link")
  let tag ← parseOptStrList (j.getKey? "tag")
  let fmf_id ← parseOptFmfId (aliasLookup j "fmf-id" "fmf_id")
  let extra_data ← parseOptDict (j.getKey? "extra_data")
  .ok { name := name, summary := summary, description := description,
        contact := contact, component := component, enabled := enabled,
        environment := environment, duration := duration,
        framework := framework, manual := manual, path := path,
        tier := tier, order := order, id := id, link := link, tag := tag,
        fmf_id := fmf_id, extra_data := extra_data }

/-- `PlanData.model_validate`. -/
def validatePlanData (j : Json) : Except String PlanData := do
  let name ← parseReqStr (j.getKey? "name")
  let summary ← parseOptStr (j.getKey? "summary")
  let description ← parseOptStr (j.getKey? "description")
  let prepare ← parseOptDictList (j.getKey? "prepare")
  let execute ← parseOptDictList (j.getKey? "execute")
  let finish ← parseOptDictList (j.getKey? "finish")
  let discover ← parseOptDict (j.getKey? "discover")
  let provision ← parseOptDict (j.getKey? "provision")
  let report ← parseOptDict (j.getKey? "report")
  let enabled ← parseOptBool (j.getKey? "enabled")
  let path ← parseOptStr (j.getKey? "path")
  let order ← parseOptInt (j.getKey? "order")
  let id ← parseOptStr (j.getKey? "id")
  let link ← parseOptDictList (j.getKey? "link")
  let tag ← parseOptStrList (j.getKey? "tag")
  let fmf_id ← parseOptFmfId (aliasLookup j "fmf-id" "fmf_id")
  let extra_data ← parseOptDict (j.getKey? "extra_data")
  .ok { name := name, summary := summary, description := description,
        prepare := prepare, execute := execute, finish := finish,
        discover := discover, provision := provision, report := report,
        enabled := enabled, path := path, order := order, id := id,
        link := link, tag := tag, fmf_id := fmf_id,
        extra_data := extra_data }

/-- `TestPlanData.model_validate`. -/
def validateTestPlanData (j : Json) : Except String TestPlanData := do
  match j.getKey? "test", j.getKey? "plan" with
  | some jt, some jp =>
    let t ← validateTestData jt
    let p ← validatePlanData jp
    .ok { test := t, plan := p }
  | _, _ => .error "Field required"

/-- `deserialize_data` from `formatters.py`, on a parsed JSON document:
dispatch on top-level keys (`test` and `plan` → `TestPlanData`,
`framework` — unique to `TestData` — → `TestData`, otherwise `PlanData`)
and validate.  A raised `ValidationError` is the `Except.error` case. -/
def deserialize_data (j : Json) : Except String ModelData :=
  if j.hasKey "test" && j.hasKey "plan" then
    (validateTestPlanData j).map .testPlan
  else if j.hasKey "framework" then
    (validateTestData j).map .test
  else
    (validatePlanData j).map .plan

/-! ## Request handler (`src/tmt_web/api.py`)

The pieces of `api.py` the claims are about: `_validate_parameters`,
`_handle_task_result` and `_to_task_out`.  A Celery `AsyncResult` is
modelled by its observable fields; `r.failed()` is `r.status ==
"FAILURE"` and `r.successful()` is `r.status == "SUCCESS"`. -/

/-- A Python string as used by the handler: its text together with the
result of `json.loads` on it (`none` when `json.loads` raises
`JSONDecodeError`). -/
structure StoredValue where
  raw : String
  parsed : Option Json

/-- Observable state of a Celery `AsyncResult`: the task id, the state
string, the task's result (the stored value on success, the exception on
failure, `none` while pending) and the traceback of a failed task. -/
structure AsyncResultModel where
  task_id : String
  status : String
  result : Option StoredValue
  traceback : Option String

/-- `AsyncResult.failed()`. -/
def AsyncResultModel.failed (r : AsyncResultModel) : Bool :=
  r.status == "FAILURE"

/-- `AsyncResult.successful()`. -/
def AsyncResultModel.successful (r : AsyncResultModel) : Bool :=
  r.status == "SUCCESS"

/-- Python `str(task_result.result)` (`str(None)` is `"None"`). -/
def resultStr (r : AsyncResultModel) : String :=
  match r.result with
  | some v => v.raw
  | none => "None"

/-- Python `str(task_result.result)` as a value to be parsed: `str(None)`
is the text `"None"`, which is not valid JSON. -/
def resultValue (r : AsyncResultModel) : StoredValue :=
  match r.result with
  | some v => v
  | none => { raw := "None", parsed := none }

/-- Truthiness of `task_result.result` (`None` and the empty string are
falsy; any parsed JSON document has non-empty text). -/
def resultTruthy (r : AsyncResultModel) : Bool :=
  match r.result with
  | some v => !(v.raw == "")
  | none => false

/-- Whether `hay` starts with `pat`, on character lists. -/
def charsStartWith : List Char → List Char → Bool
  | _, [] => true
  | [], _ :: _ => false
  | a :: as, b :: bs => a == b && charsStartWith as bs

/-- Whether some suffix of the second list starts with `pat`. -/
def charsContain (pat : List Char) : List Char → Bool
  | [] => pat.isEmpty
  | c :: rest => charsStartWith (c :: rest) pat || charsContain pat rest

/-- Python `pat in hay` on strings, for non-empty `pat` (substring
containment). -/
def pyInStr (pat hay : String) : Bool :=
  charsContain pat.data hay.data

/-- Python `str.lower()` (ASCII case folding suffices for the messages
involved). -/
def pyLower (s : String) : String :=
  ⟨s.data.map Char.toLower⟩

/-- The not-found heuristic of the handler:
`"not found" in error_message.lower()`. -/
def containsNotFound (msg : String) : Bool :=
  pyInStr "not found" (pyLower msg)

/-- The response model `TaskOut`. -/
structure TaskOut where
  id : String
  status : String
  result : Option String
  status_callback_url : Option String

/-- `TaskOut.model_dump()` as a JSON document. -/
def TaskOut.toJson (t : TaskOut) : Json :=
  .obj [("id", .str t.id), ("status", .str t.status),
        ("result", jsonOfOptStr t.result),
        ("status_callback_url", jsonOfOptStr t.status_callback_url)]

/-- `_to_task_out`: convert an `AsyncResult` to a `TaskOut`, with the
format-aware status callback URL.  `hostname` is
`settings.API_HOSTNAME`. -/
def _to_task_out (hostname : String) (r : AsyncResultModel)
    (out_format : String) : TaskOut :=
  let url0 := hostname ++ "/status"
  let url1 := if out_format == "html" then url0 ++ "/html" else url0
  { id := r.task_id
    status := r.status
    result := if r.failed then r.traceback else r.result.map StoredValue.raw
    status_callback_url := some (url1 ++ "?task-id=" ++ r.task_id) }

/-! ### Formatters (`src/tmt_web/formatters.py`, `format_data`)

The HTML generators (`generators/html_generator.py`) and `tmt`'s
`dict_to_yaml` are collaborator rendering leaves, abstracted as function
parameters bundled in `FormatCollab`; the JSON output
(`model_dump_json(by_alias=True)`) is modelled by its parse tree. -/

/-- Collaborator rendering functions used by `format_data`. -/
structure FormatCollab where
  genHtmlTest : TestData → String
  genHtmlPlan : PlanData → String
  genHtmlTestPlan : TestData → PlanData → String
  dictToYaml : Json → String

/-- `_format_html`: dispatch on the model variant. -/
def _format_html (fc : FormatCollab) : ModelData → String
  | .testPlan tp => fc.genHtmlTestPlan tp.test tp.plan
  | .test t => fc.genHtmlTest t
  | .plan p => fc.genHtmlPlan p

/-- `_format_json`: `model_dump_json(by_alias=True)`, as a parse tree. -/
def _format_json (data : ModelData) : Json :=
  serialize_data data

/-- `_format_yaml`: `dict_to_yaml(model_dump(by_alias=True))`. -/
def _format_yaml (fc : FormatCollab) (data : ModelData) : String :=
  fc.dictToYaml (serialize_data data)

/-- Output of `format_data`, tagged by the branch that produced it (the
Python function returns a plain string in each case). -/
inductive FormatOut where
  | htmlText (s : String)
  | yamlText (s : String)
  | jsonDoc (j : Json)

/-- `format_data`: format a model in the requested output format; an
unsupported format raises `ValueError`. -/
def format_data (fc : FormatCollab) (data : ModelData)
    (out_format : String) : Except String FormatOut :=
  match out_format with
  | "html" => .ok (.htmlText (_format_html fc data))
  | "json" => .ok (.jsonDoc (_format_json data))
  | "yaml" => .ok (.yamlText (_format_yaml fc data))
  | _ => .error ("Unsupported output format: " ++ out_format)

/-- `deserialize_data` applied to a raw stored string: `json.loads` (the
`parsed` component; a decode failure raises) followed by the key dispatch
and model validation of `deserialize_data`. -/
def deserializeStored (v : StoredValue) : Except String ModelData :=
  match v.parsed with
  | none => .error "Invalid JSON data"
  | some j => deserialize_data j

/-- Responses produced by `_handle_task_result`: an `HTMLResponse`, a
`PlainTextResponse`, a `JSONResponse` (all HTTP 200) or a raised
`HTTPException` with its status code and detail. -/
inductive ApiResponse where
  | htmlResponse (body : String)
  | plainTextResponse (body : String)
  | jsonResponse (content : Json)
  | httpError (statusCode : Nat) (detail : String)

/-- `_handle_task_result`: 404 for a failed task whose error message
matches the not-found heuristic; for a successful task with a truthy
result, deserialize the stored result and format it for the requested
format, any exception in that block becoming a 500 `HTTPException`
(`json.loads` on the `_format_json` output cannot fail and is the
identity on parse trees); everything else falls through to a 200
`JSONResponse` carrying the `TaskOut` dump. -/
def _handle_task_result (hostname : String) (fc : FormatCollab)
    (task_result : AsyncResultModel) (out_format : String) : ApiResponse :=
  if task_result.failed && containsNotFound (resultStr task_result) then
    .httpError 404 (resultStr task_result)
  else if task_result.successful && resultTruthy task_result then
    match deserializeStored (resultValue task_result) with
    | .error e => .httpError 500 ("Error handling task result: " ++ e)
    | .ok data =>
      match format_data fc data out_format with
      | .error e => .httpError 500 ("Error handling task result: " ++ e)
      | .ok (.htmlText s) => .htmlResponse s
      | .ok (.yamlText s) => .plainTextResponse s
      | .ok (.jsonDoc j) => .jsonResponse j
  else
    .jsonResponse (TaskOut.toJson (_to_task_out hostname task_result out_format))

/-- `_validate_parameters`: `none` when validation passes, otherwise the
(status code, detail) of the raised `HTTPException`. -/
def _validate_parameters (test_url test_name plan_url plan_name :
    Option String) : Option (Nat × String) :=
  if (test_url.isNone && test_name.isSome) ||
      (test_url.isSome && test_name.isNone) then
    some (400, "Both test-url and test-name must be provided together")
  else if (plan_url.isNone && plan_name.isSome) ||
      (plan_url.isSome && plan_name.isNone) then
    some (400, "Both plan-url and plan-name must be provided together")
  else if plan_url.isNone && plan_name.isNone &&
      test_url.isNone && test_name.isNone then
    some (400, "At least one of test or plan parameters must be provided")
  else
    none

/-- Trivial instantiation of the collaborator rendering leaves, for
evaluating the handler on concrete inputs whose control flow never
reaches them. -/
def trivialCollab : FormatCollab :=
  { genHtmlTest := fun _ => ""
    genHtmlPlan := fun _ => ""
    genHtmlTestPlan := fun _ _ => ""
    dictToYaml := fun _ => "" }

/-- A successful task whose stored result is valid JSON
(`\x7b"unknown": "format"\x7d`) on which model validation fails: the
object has neither `test`/`plan` nor `framework` keys, so `PlanData`
validation runs and rejects it for the missing required `name` field. -/
def malformedResultTask : AsyncResultModel :=
  { task_id := "abc"
    status := "SUCCESS"
    result := some { raw := "\x7b\"unknown\": \"format\"\x7d"
                     parsed := some (.obj [("unknown", .str "format")]) }
    traceback := none }

/-- Every reachable store cell satisfies the per-phase characterization. -/
theorem reach_storeInv {o : Except String (Option Json)} {id : String}
    {c : Nat} {ps : Phase × Option TaskInfo} (h : Reach o id c ps) :
    StoreInv o id c ps.1 ps.2 := by
  induction h with
  | init => exact Or.inr rfl
  | step hr hw ih =>
    cases hw with
    | start t s0 =>
      simp only [StoreInv] at ih ⊢
      rcases ih with h1 | h1
      · subst h1; exact Or.inl rfl
      · subst h1; exact Or.inr ⟨t, rfl⟩
    | finishOk v t s0 ho =>
      simp only [StoreInv] at ih ⊢
      rcases ih with h1 | ⟨t1, h1⟩
      · subst h1; exact Or.inl rfl
      · subst h1
        refine Or.inr (Or.inl ⟨v, t, ho, ?_⟩)
        cases v <;> rfl
    | finishErr e t s0 ho =>
      simp only [StoreInv] at ih ⊢
      rcases ih with h1 | ⟨t1, h1⟩
      · subst h1; exact Or.inl rfl
      · subst h1; exact Or.inr (Or.inr ⟨e, t, ho, rfl⟩)
    | expire p0 s0 =>
      cases p0 <;> exact Or.inl rfl

/-- C1: `execute_task` returns the freshly created task id immediately,
with the store still holding the `PENDING` record (the work has not run);
the queued wrapper first applies the `STARTED` update, then runs the work,
and turns a normal return into a `SUCCESS` update carrying the return
value and any raised exception into a `FAILURE` update carrying
`str(exception)`.  The wrapper is a total function, so no exception from
the work propagates past it: the last two conjuncts cover every possible
outcome of the work. -/
theorem C1_execute_task_wrapper {κ : Type}
    (func : κ → Except String (Option Json)) (kwargs : κ)
    (id : String) (c tS tE : Nat) :
    (execute_task id c func kwargs).1 = id ∧
    (execute_task id c func kwargs).2.1 = some (create_task id c) ∧
    (create_task id c).status = .pending ∧
    update_task .started none none tS (execute_task id c func kwargs).2.1 =
      some { create_task id c with status := .started, updatedAt := some tS } ∧
    (∀ v, func kwargs = .ok v →
      (execute_task id c func kwargs).2.2 tS tE (execute_task id c func kwargs).2.1 =
        some { create_task id c with
          status := .success, result := v, updatedAt := some tE }) ∧
    (∀ e, func kwargs = .error e →
      (execute_task id c func kwargs).2.2 tS tE (execute_task id c func kwargs).2.1 =
        some { create_task id c with
          status := .failure, error := some e, updatedAt := some tE }) := by
  refine ⟨rfl, rfl, rfl, rfl, ?_, ?_⟩
  · intro v hv
    simp only [execute_task, task_wrapper, hv]
    cases v <;> rfl
  · intro e he
    simp only [execute_task, task_wrapper, he]
    rfl

/-- Witness for C1 at a concrete work function that raises
`ValueError("boom")`. -/
theorem C1_execute_task_wrapper_witness :
    (execute_task "tid" 3 (fun _ : Unit => Except.error "boom") ()).2.2 4 5
        (execute_task "tid" 3 (fun _ : Unit => Except.error "boom") ()).2.1 =
      some { create_task "tid" 3 with
        status := .failure, error := some "boom", updatedAt := some 5 } :=
  (C1_execute_task_wrapper (fun _ : Unit => Except.error "boom") () "tid" 3 4 5).2.2.2.2.2
    "boom" rfl

/-- C2: along the step relation generated by `create_task` and the
wrapper's updates (plus expiry), the stored status never decreases in the
partial order `PENDING < STARTED < {SUCCESS, FAILURE}`, a record never
leaves a terminal status, and the terminal status reached is the one
determined by the work's outcome — so at most one of `SUCCESS`/`FAILURE`
is ever reached, never both. -/
theorem C2_status_monotone (o : Except String (Option Json))
    (id : String) (c : Nat) :
    (∀ p s p' s', Reach o id c (p, s) → WStep o (p, s) (p', s') →
      ∀ t t', s = some t → s' = some t' →
        statusLe t.status t'.status = true ∧
        (isTerminal t.status = true → t'.status = t.status)) ∧
    (∀ p s t, Reach o id c (p, s) → s = some t →
      (t.status = .success → ∃ v, o = .ok v) ∧
      (t.status = .failure → ∃ e, o = .error e)) := by
  constructor
  · intro p s p' s' hr hw t t' hs hs'
    have inv := reach_storeInv hr
    cases hw with
    | start t0 s0 =>
      simp only [StoreInv] at inv
      rcases inv with h1 | h1
      · simp [h1] at hs
      · subst h1
        obtain rfl : t = create_task id c := by
          injection hs with h; exact h.symm
        simp only [update_task] at hs'
        obtain rfl : t' = _ := by injection hs' with h; exact h.symm
        exact ⟨rfl, by intro h; simp [create_task, isTerminal] at h⟩
    | finishOk v t0 s0 ho =>
      simp only [StoreInv] at inv
      rcases inv with h1 | ⟨t1, h1⟩
      · simp [h1] at hs
      · subst h1
        obtain rfl : t = _ := by injection hs with h; exact h.symm
        simp only [update_task] at hs'
        obtain rfl : t' = _ := by injection hs' with h; exact h.symm
        exact ⟨rfl, by intro h; simp [isTerminal] at h⟩
    | finishErr e t0 s0 ho =>
      simp only [StoreInv] at inv
      rcases inv with h1 | ⟨t1, h1⟩
      · simp [h1] at hs
      · subst h1
        obtain rfl : t = _ := by injection hs with h; exact h.symm
        simp only [update_task] at hs'
        obtain rfl : t' = _ := by injection hs' with h; exact h.symm
        exact ⟨rfl, by intro h; simp [isTerminal] at h⟩
    | expire p0 s0 =>
      exact absurd hs' (by simp)
  · intro p s t hr hs
    have inv := reach_storeInv hr
    cases p with
    | created =>
      simp only [StoreInv] at inv
      rcases inv with h1 | h1
      · simp [h1] at hs
      · subst h1
        obtain rfl : t = create_task id c := by injection hs with h; exact h.symm
        exact ⟨fun h => by simp [create_task] at h, fun h => by simp [create_task] at h⟩
    | running =>
      simp only [StoreInv] at inv
      rcases inv with h1 | ⟨t1, h1⟩
      · simp [h1] at hs
      · subst h1
        obtain rfl : t = _ := by injection hs with h; exact h.symm
        exact ⟨fun h => by simp at h, fun h => by simp at h⟩
    | done =>
      simp only [StoreInv] at inv
      rcases inv with h1 | ⟨v, t2, ho, h1⟩ | ⟨e, t2, ho, h1⟩
      · simp [h1] at hs
      · subst h1
        obtain rfl : t = _ := by injection hs with h; exact h.symm
        exact ⟨fun _ => ⟨v, ho⟩, fun h => by simp at h⟩
      · subst h1
        obtain rfl : t = _ := by injection hs with h; exact h.symm
        exact ⟨fun h => by simp at h, fun _ => ⟨e, ho⟩⟩

/-- Witness for C2 at the concrete step from the fresh `PENDING` record to
the `STARTED` record. -/
theorem C2_status_monotone_witness :
    statusLe (create_task "t" 0).status
        ({ create_task "t" 0 with
          status := TaskStatus.started, updatedAt := some 5 } : TaskInfo).status = true ∧
    (isTerminal (create_task "t" 0).status = true →
      ({ create_task "t" 0 with
        status := TaskStatus.started, updatedAt := some 5 } : TaskInfo).status =
        (create_task "t" 0).status) :=
  (C2_status_monotone (.error "boom") "t" 0).1 .created (some (create_task "t" 0))
    .running (update_task .started none none 5 (some (create_task "t" 0)))
    Reach.init (WStep.start 5 _) (create_task "t" 0)
    { create_task "t" 0 with status := .started, updatedAt := some 5 } rfl rfl

/-- C3: in every task record reachable from `create_task` by wrapper-driven
updates, `result` and `error` are never both non-null, and both are null
while the status is `PENDING` or `STARTED`. -/
theorem C3_result_error_exclusive (o : Except String (Option Json))
    (id : String) (c : Nat) (p : Phase) (s : Option TaskInfo) (t : TaskInfo)
    (hr : Reach o id c (p, s)) (hs : s = some t) :
    ¬(t.result.isSome = true ∧ t.error.isSome = true) ∧
    ((t.status = .pending ∨ t.status = .started) →
      t.result = none ∧ t.error = none) := by
  have inv := reach_storeInv hr
  cases p with
  | created =>
    simp only [StoreInv] at inv
    rcases inv with h1 | h1
    · simp [h1] at hs
    · subst h1
      obtain rfl : t = create_task id c := by injection hs with h; exact h.symm
      exact ⟨by simp [create_task], fun _ => ⟨rfl, rfl⟩⟩
  | running =>
    simp only [StoreInv] at inv
    rcases inv with h1 | ⟨t1, h1⟩
    · simp [h1] at hs
    · subst h1
      obtain rfl : t = _ := by injection hs with h; exact h.symm
      exact ⟨by simp [create_task], fun _ => ⟨rfl, rfl⟩⟩
  | done =>
    simp only [StoreInv] at inv
    rcases inv with h1 | ⟨v, t2, ho, h1⟩ | ⟨e, t2, ho, h1⟩
    · simp [h1] at hs
    · subst h1
      obtain rfl : t = _ := by injection hs with h; exact h.symm
      exact ⟨by simp [create_task], fun h => by simp [create_task] at h⟩
    · subst h1
      obtain rfl : t = _ := by injection hs with h; exact h.symm
      exact ⟨by simp [create_task], fun h => by simp [create_task] at h⟩

/-- Witness for C3 at the fresh `PENDING` record. -/
theorem C3_result_error_exclusive_witness :
    ¬((create_task "t" 0).result.isSome = true ∧
        (create_task "t" 0).error.isSome = true) ∧
    (((create_task "t" 0).status = .pending ∨
        (create_task "t" 0).status = .started) →
      (create_task "t" 0).result = none ∧ (create_task "t" 0).error = none) :=
  C3_result_error_exclusive (.ok none) "t" 0 .created
    (some (create_task "t" 0)) (create_task "t" 0) Reach.init rfl

/-- C6: for an id that is absent from the store (unknown or expired),
`get_task_info` returns the synthesized record with status `FAILURE`,
error `"Task not found"` and a null result.  Being a total Lean function,
it never raises. -/
theorem C6_get_task_info_absent (id : String) :
    get_task_info id none =
      { id := id
        status := .failure
        result := none
        error := some "Task not found"
        createdAt := none
        updatedAt := none } := rfl

/-- C7: for an id that is absent from the store, `update_task` is a no-op:
it returns normally and leaves the (absent) store cell unchanged,
inserting nothing. -/
theorem C7_update_task_absent_noop (status : TaskStatus)
    (result : Option Json) (error : Option String) (now : Nat) :
    update_task status result error now none = none := rfl

/-- C10: `update_task` on an existing record never modifies `id` or
`created_at`, leaves the stored `result` unchanged when called with
`result=None` and the stored `error` unchanged when called with
`error=None`; it writes exactly `status`, `updated_at` and the non-`None`
`result`/`error` arguments. -/
theorem C10_update_task_frame (t : TaskInfo) (status : TaskStatus)
    (result : Option Json) (error : Option String) (now : Nat) (u : TaskInfo)
    (h : update_task status result error now (some t) = some u) :
    u.id = t.id ∧ u.createdAt = t.createdAt ∧
    (result = none → u.result = t.result) ∧
    (error = none → u.error = t.error) ∧
    (∀ r, result = some r → u.result = some r) ∧
    (∀ e, error = some e → u.error = some e) ∧
    u.status = status ∧ u.updatedAt = some now := by
  simp only [update_task] at h
  obtain rfl : u = _ := by injection h with h; exact h.symm
  refine ⟨rfl, rfl, ?_, ?_, ?_, ?_, rfl, rfl⟩
  · intro hr; subst hr; rfl
  · intro he; subst he; rfl
  · intro r hr; subst hr; rfl
  · intro e he; subst he; rfl

/-- Witness for C10 at a concrete `STARTED` record updated to `SUCCESS`. -/
theorem C10_update_task_frame_witness :
    ({ create_task "t" 0 with
        status := TaskStatus.success, result := some (.str "out"),
        updatedAt := some 7 } : TaskInfo).id = (create_task "t" 0).id ∧
    ({ create_task "t" 0 with
        status := TaskStatus.success, result := some (.str "out"),
        updatedAt := some 7 } : TaskInfo).createdAt = (create_task "t" 0).createdAt :=
  have h := C10_update_task_frame (create_task "t" 0) .success
    (some (.str "out")) none 7
    { create_task "t" 0 with
      status := .success, result := some (.str "out"), updatedAt := some 7 } rfl
  ⟨h.1, h.2.1⟩

/-! ### Round-trip lemmas for validation of dumped models -/

@[simp] theorem exceptBindOk {ε α β : Type} (a : α) (f : α → Except ε β) :
    (Except.ok a >>= f) = f a := rfl

@[simp] theorem exceptMapOk {ε α β : Type} (g : α → β) (a : α) :
    (Except.ok a : Except ε α).map g = .ok (g a) := rfl

@[simp] theorem parseOptStr_dump (v : Option String) :
    parseOptStr (some (jsonOfOptStr v)) = .ok v := by cases v <;> rfl

@[simp] theorem parseOptBool_dump (v : Option Bool) :
    parseOptBool (some (jsonOfOptBool v)) = .ok v := by cases v <;> rfl

@[simp] theorem parseOptInt_dump (v : Option Int) :
    parseOptInt (some (jsonOfOptInt v)) = .ok v := by cases v <;> rfl

@[simp] theorem parseStrElems_dump (xs : List String) :
    parseStrElems (xs.map .str) = .ok xs := by
  induction xs with
  | nil => rfl
  | cons a as ih => simp [parseStrElems, ih]

@[simp] theorem parseOptStrList_dump (v : Option (List String)) :
    parseOptStrList (some (jsonOfOptStrList v)) = .ok v := by
  cases v with
  | none => rfl
  | some xs => simp [jsonOfOptStrList, parseOptStrList]

@[simp] theorem parseOptDict_dump (v : Option (List (String × Json))) :
    parseOptDict (some (jsonOfOptDict v)) = .ok v := by cases v <;> rfl

@[simp] theorem parseDictElems_dump (ds : List (List (String × Json))) :
    parseDictElems (ds.map .obj) = .ok ds := by
  induction ds with
  | nil => rfl
  | cons a as ih => simp [parseDictElems, ih]

@[simp] theorem parseOptDictList_dump (v : Option (List (List (String × Json)))) :
    parseOptDictList (some (jsonOfOptDictList v)) = .ok v := by
  cases v with
  | none => rfl
  | some ds => simp [jsonOfOptDictList, parseOptDictList]

@[simp] theorem parseReqStr_str (s : String) :
    parseReqStr (some (.str s)) = .ok s := rfl

@[simp] theorem fmfJson_name (f : FmfIdData) :
    (FmfIdData.toJson f).getKey? "name" = some (.str f.name) := rfl

@[simp] theorem fmfJson_url (f : FmfIdData) :
    (FmfIdData.toJson f).getKey? "url" = some (jsonOfOptStr f.url) := rfl

@[simp] theorem fmfJson_path (f : FmfIdData) :
    (FmfIdData.toJson f).getKey? "path" = some (jsonOfOptStr f.path) := rfl

@[simp] theorem fmfJson_ref (f : FmfIdData) :
    (FmfIdData.toJson f).getKey? "ref" = some (jsonOfOptStr f.ref) := rfl

@[simp] theorem validateFmfId_dump (f : FmfIdData) :
    validateFmfId f.toJson = .ok f := by
  simp [validateFmfId]

@[simp] theorem parseOptFmfId_dump (v : Option FmfIdData) :
    parseOptFmfId (some (jsonOfOptFmfId v)) = .ok v := by
  cases v with
  | none => rfl
  | some f =>
    cases f with
    | mk n u p r =>
      show ((validateFmfId (FmfIdData.toJson ⟨n, u, p, r⟩)).map some) = _
      rw [validateFmfId_dump]
      rfl

@[simp] theorem testJson_name (t : TestData) :
    (TestData.toJson t).getKey? "name" = some (.str t.name) := rfl

@[simp] theorem testJson_summary (t : TestData) :
    (TestData.toJson t).getKey? "summary" = some (jsonOfOptStr t.summary) := rfl

@[simp] theorem testJson_description (t : TestData) :
    (TestData.toJson t).getKey? "description" =
      some (jsonOfOptStr t.description) := rfl

@[simp] theorem testJson_contact (t : TestData) :
    (TestData.toJson t).getKey? "contact" =
      some (jsonOfOptStrList t.contact) := rfl

@[simp] theorem testJson_component (t : TestData) :
    (TestData.toJson t).getKey? "component" =
      some (jsonOfOptStrList t.component) := rfl

@[simp] theorem testJson_enabled (t : TestData) :
    (TestData.toJson t).getKey? "enabled" = some (jsonOfOptBool t.enabled) := rfl

@[simp] theorem testJson_environment (t : TestData) :
    (TestData.toJson t).getKey? "environment" =
      some (jsonOfOptDict t.environment) := rfl

@[simp] theorem testJson_duration (t : TestData) :
    (TestData.toJson t).getKey? "duration" = some (jsonOfOptStr t.duration) := rfl

@[simp] theorem testJson_framework (t : TestData) :
    (TestData.toJson t).getKey? "framework" =
      some (jsonOfOptStr t.framework) := rfl

@[simp] theorem testJson_manual (t : TestData) :
    (TestData.toJson t).getKey? "manual" = some (jsonOfOptBool t.manual) := rfl

@[simp] theorem testJson_path (t : TestData) :
    (TestData.toJson t).getKey? "path" = some (jsonOfOptStr t.path) := rfl

@[simp] theorem testJson_tier (t : TestData) :
    (TestData.toJson t).getKey? "tier" = some (jsonOfOptStr t.tier) := rfl

@[simp] theorem testJson_order (t : TestData) :
    (TestData.toJson t).getKey? "order" = some (jsonOfOptInt t.order) := rfl

@[simp] theorem testJson_id (t : TestData) :
    (TestData.toJson t).getKey? "id" = some (jsonOfOptStr t.id) := rfl

@[simp] theorem testJson_link (t : TestData) :
    (TestData.toJson t).getKey? "link" = some (jsonOfOptDictList t.link) := rfl

@[simp] theorem testJson_tag (t : TestData) :
    (TestData.toJson t).getKey? "tag" = some (jsonOfOptStrList t.tag) := rfl

@[simp] theorem testJson_fmfId (t : TestData) :
    aliasLookup (TestData.toJson t) "fmf-id" "fmf_id" =
      some (jsonOfOptFmfId t.fmf_id) := rfl

@[simp] theorem testJson_extraData (t : TestData) :
    (TestData.toJson t).getKey? "extra_data" =
      some (jsonOfOptDict t.extra_data) := rfl

@[simp] theorem planJson_name (p : PlanData) :
    (PlanData.toJson p).getKey? "name" = some (.str p.name) := rfl

@[simp] theorem planJson_summary (p : PlanData) :
    (PlanData.toJson p).getKey? "summary" = some (jsonOfOptStr p.summary) := rfl

@[simp] theorem planJson_description (p : PlanData) :
    (PlanData.toJson p).getKey? "description" =
      some (jsonOfOptStr p.description) := rfl

@[simp] theorem planJson_prepare (p : PlanData) :
    (PlanData.toJson p).getKey? "prepare" =
      some (jsonOfOptDictList p.prepare) := rfl

@[simp] theorem planJson_execute (p : PlanData) :
    (PlanData.toJson p).getKey? "execute" =
      some (jsonOfOptDictList p.execute) := rfl

@[simp] theorem planJson_finish (p : PlanData) :
    (PlanData.toJson p).getKey? "finish" =
      some (jsonOfOptDictList p.finish) := rfl

@[simp] theorem planJson_discover (p : PlanData) :
    (PlanData.toJson p).getKey? "discover" =
      some (jsonOfOptDict p.discover) := rfl

@[simp] theorem planJson_provision (p : PlanData) :
    (PlanData.toJson p).getKey? "provision" =
      some (jsonOfOptDict p.provision) := rfl

@[simp] theorem planJson_report (p : PlanData) :
    (PlanData.toJson p).getKey? "report" = some (jsonOfOptDict p.report) := rfl

@[simp] theorem planJson_enabled (p : PlanData) :
    (PlanData.toJson p).getKey? "enabled" = some (jsonOfOptBool p.enabled) := rfl

@[simp] theorem planJson_path (p : PlanData) :
    (PlanData.toJson p).getKey? "path" = some (jsonOfOptStr p.path) := rfl

@[simp] theorem planJson_order (p : PlanData) :
    (PlanData.toJson p).getKey? "order" = some (jsonOfOptInt p.order) := rfl

@[simp] theorem planJson_id (p : PlanData) :
    (PlanData.toJson p).getKey? "id" = some (jsonOfOptStr p.id) := rfl

@[simp] theorem planJson_link (p : PlanData) :
    (PlanData.toJson p).getKey? "link" = some (jsonOfOptDictList p.link) := rfl

@[simp] theorem planJson_tag (p : PlanData) :
    (PlanData.toJson p).getKey? "tag" = some (jsonOfOptStrList p.tag) := rfl

@[simp] theorem planJson_fmfId (p : PlanData) :
    aliasLookup (PlanData.toJson p) "fmf-id" "fmf_id" =
      some (jsonOfOptFmfId p.fmf_id) := rfl

@[simp] theorem planJson_extraData (p : PlanData) :
    (PlanData.toJson p).getKey? "extra_data" =
      some (jsonOfOptDict p.extra_data) := rfl

/-- Validating a dumped `TestData` recovers it exactly. -/
theorem validateTestData_dump (t : TestData) :
    validateTestData t.toJson = .ok t := by
  simp [validateTestData]

/-- Validating a dumped `PlanData` recovers it exactly. -/
theorem validatePlanData_dump (p : PlanData) :
    validatePlanData p.toJson = .ok p := by
  simp [validatePlanData]

@[simp] theorem testJson_hasKey_test (t : TestData) :
    (TestData.toJson t).hasKey "test" = false := rfl

@[simp] theorem testJson_hasKey_framework (t : TestData) :
    (TestData.toJson t).hasKey "framework" = true := rfl

@[simp] theorem planJson_hasKey_test (p : PlanData) :
    (PlanData.toJson p).hasKey "test" = false := rfl

@[simp] theorem planJson_hasKey_framework (p : PlanData) :
    (PlanData.toJson p).hasKey "framework" = false := rfl

@[simp] theorem tpJson_hasKey_test (tp : TestPlanData) :
    (Json.obj [("test", tp.test.toJson), ("plan", tp.plan.toJson)]).hasKey
      "test" = true := rfl

@[simp] theorem tpJson_hasKey_plan (tp : TestPlanData) :
    (Json.obj [("test", tp.test.toJson), ("plan", tp.plan.toJson)]).hasKey
      "plan" = true := rfl

/-- C9: `deserialize_data` is a left inverse of `serialize_data` on every
`TestData`, `PlanData` and `TestPlanData` value — in particular on
`TestData` values whose `framework` field is `None` (the dumped object
still carries the `framework` key, with a `null` value, so the dispatch
still selects `TestData`) and on values carrying an `fmf-id` sub-record or
`extra_data`. -/
theorem C9_serialize_roundtrip (x : ModelData) :
    deserialize_data (serialize_data x) = .ok x := by
  cases x with
  | test t =>
    simp [deserialize_data, serialize_data, validateTestData_dump]
  | plan p =>
    simp [deserialize_data, serialize_data, validatePlanData_dump]
  | testPlan tp =>
    have ht : (Json.obj [("test", tp.test.toJson), ("plan", tp.plan.toJson)]).getKey?
        "test" = some tp.test.toJson := rfl
    have hp : (Json.obj [("test", tp.test.toJson), ("plan", tp.plan.toJson)]).getKey?
        "plan" = some tp.plan.toJson := rfl
    simp [deserialize_data, serialize_data, validateTestPlanData, ht, hp,
      validateTestData_dump, validatePlanData_dump]

/-- C4 counterexample: on a `SUCCESS` task whose non-empty stored result
fails structured deserialization, `_handle_task_result` does NOT fall
back to treating the value as pre-formatted text — it raises the 500
internal error `HTTPException` (so neither an HTML nor a plain-text
response carrying the raw value is returned). -/
theorem C4_counterexample :
    _handle_task_result "http://localhost:8000" trivialCollab
        malformedResultTask "json" =
      .httpError 500 "Error handling task result: Field required" ∧
    _handle_task_result "http://localhost:8000" trivialCollab
        malformedResultTask "json" ≠
      .plainTextResponse "\x7b\"unknown\": \"format\"\x7d" ∧
    _handle_task_result "http://localhost:8000" trivialCollab
        malformedResultTask "json" ≠
      .htmlResponse "\x7b\"unknown\": \"format\"\x7d" :=
  ⟨rfl, fun h => ApiResponse.noConfusion h, fun h => ApiResponse.noConfusion h⟩

/-- C4 (amended): when the handler views a task whose status is `SUCCESS`
and whose stored result is non-empty, it first attempts structured
deserialization of the stored result; any failure during this
finalization step (deserialization failure included) is reported as an
internal error (`HTTPException` 500 with a distinct message prefix)
rather than silently dropped — there is no fallback to treating the
value as pre-formatted text — and on successful deserialization the
result is formatted for the requested output format and returned as the
response content. -/
theorem C4_success_finalization (hostname : String) (fc : FormatCollab)
    (r : AsyncResultModel) (v : StoredValue)
    (hs : r.status = "SUCCESS") (hv : r.result = some v) (hne : v.raw ≠ "") :
    (∀ fmt e, deserializeStored v = .error e →
      _handle_task_result hostname fc r fmt =
        .httpError 500 ("Error handling task result: " ++ e)) ∧
    (∀ d, deserializeStored v = .ok d →
      _handle_task_result hostname fc r "html" =
        .htmlResponse (_format_html fc d) ∧
      _handle_task_result hostname fc r "yaml" =
        .plainTextResponse (_format_yaml fc d) ∧
      _handle_task_result hostname fc r "json" =
        .jsonResponse (_format_json d)) := by
  have hfail : r.failed = false := by
    simp [AsyncResultModel.failed, hs]
  have hsucc : r.successful = true := by
    simp [AsyncResultModel.successful, hs]
  have htr : resultTruthy r = true := by
    simp [resultTruthy, hv, hne]
  have hval : resultValue r = v := by
    simp [resultValue, hv]
  constructor
  · intro fmt e he
    simp [_handle_task_result, hfail, hsucc, htr, hval, he]
  · intro d hd
    refine ⟨?_, ?_, ?_⟩ <;>
      simp [_handle_task_result, hfail, hsucc, htr, hval, hd, format_data]

/-- Witness for C4 at a concrete successful task holding a minimal
serialized `TestData`. -/
theorem C4_success_finalization_witness :
    _handle_task_result "http://localhost:8000" trivialCollab
        { task_id := "abc"
          status := "SUCCESS"
          result := some
            { raw := "\x7b\"name\": \"/tests/x\", \"framework\": null\x7d"
              parsed := some (.obj [("name", .str "/tests/x"),
                                    ("framework", .null)]) }
          traceback := none } "json" =
      .jsonResponse (_format_json (.test
        { name := "/tests/x", summary := none, description := none,
          contact := none, component := none, enabled := none,
          environment := none, duration := none, framework := none,
          manual := none, path := none, tier := none, order := none,
          id := none, link := none, tag := none, fmf_id := none,
          extra_data := none })) :=
  ((C4_success_finalization "http://localhost:8000" trivialCollab
      { task_id := "abc"
        status := "SUCCESS"
        result := some
          { raw := "\x7b\"name\": \"/tests/x\", \"framework\": null\x7d"
            parsed := some (.obj [("name", .str "/tests/x"),
                                  ("framework", .null)]) }
        traceback := none }
      { raw := "\x7b\"name\": \"/tests/x\", \"framework\": null\x7d"
        parsed := some (.obj [("name", .str "/tests/x"),
                              ("framework", .null)]) }
      rfl rfl (by decide)).2
    (.test { name := "/tests/x", summary := none, description := none,
             contact := none, component := none, enabled := none,
             environment := none, duration := none, framework := none,
             manual := none, path := none, tier := none, order := none,
             id := none, link := none, tag := none, fmf_id := none,
             extra_data := none })
    rfl).2.2

/-- C5: what `_handle_task_result` actually does with a `FAILURE` task.
The first conjunct proves the claim's not-found half: an error message
matching the heuristic yields a 404 `HTTPException` carrying it as
detail.  The second conjunct evaluates the handler at a failed task with
the generic error `"Some generic error occurred"`: the code returns a
200 `JSONResponse` with the `TaskOut` dump (status `FAILURE`, the
traceback as `result`) — NOT the HTTP 500 required by the claim, the
spec (§4.3, §7) and the repository's own integration test
`test_task_failure_generic_error`. -/
theorem C5_failure_handling (hostname : String) (fc : FormatCollab)
    (r : AsyncResultModel) (fmt : String)
    (hf : r.failed = true) (hn : containsNotFound (resultStr r) = true) :
    _handle_task_result hostname fc r fmt = .httpError 404 (resultStr r) ∧
    _handle_task_result "http://localhost:8000" trivialCollab
        { task_id := "abc"
          status := "FAILURE"
          result := some { raw := "Some generic error occurred"
                           parsed := none }
          traceback := some "TRACE" } "json" =
      .jsonResponse (TaskOut.toJson
        { id := "abc", status := "FAILURE", result := some "TRACE",
          status_callback_url :=
            some "http://localhost:8000/status?task-id=abc" }) := by
  constructor
  · simp [_handle_task_result, hf, hn]
  · rfl

/-- Witness for C5 at a failed task whose error is
`"Test '/x' not found"`. -/
theorem C5_failure_handling_witness :
    _handle_task_result "http://localhost:8000" trivialCollab
        { task_id := "abc"
          status := "FAILURE"
          result := some { raw := "Test '/x' not found", parsed := none }
          traceback := some "TRACE" } "json" =
      .httpError 404 "Test '/x' not found" :=
  (C5_failure_handling "http://localhost:8000" trivialCollab
    { task_id := "abc"
      status := "FAILURE"
      result := some { raw := "Test '/x' not found", parsed := none }
      traceback := some "TRACE" } "json" rfl (by decide)).1

/-- C8 counterexample: when the test pair AND the plan pair are each
half-provided, the request is rejected with the test-pair message, not
the plan-pair message the claim promises for a half-provided plan
pair. -/
theorem C8_counterexample :
    _validate_parameters (some "https://github.com/teemtee/tmt") none
        (some "https://github.com/teemtee/tmt") none =
      some (400, "Both test-url and test-name must be provided together") ∧
    ¬(_validate_parameters (some "https://github.com/teemtee/tmt") none
        (some "https://github.com/teemtee/tmt") none =
      some (400, "Both plan-url and plan-name must be provided together")) := by
  exact ⟨rfl, by decide⟩

/-- C8 (amended): a half-provided test pair is rejected with HTTP 400 and
the test-pair detail; a half-provided plan pair is rejected with HTTP 400
and the plan-pair detail provided the test pair is consistent (both or
neither given, since the test-pair check runs first); and when all four
parameters are absent the request is rejected with HTTP 400. -/
theorem C8_validate_parameters (tu tn pu pn : Option String) :
    (tu.isSome ≠ tn.isSome →
      _validate_parameters tu tn pu pn =
        some (400, "Both test-url and test-name must be provided together")) ∧
    (pu.isSome ≠ pn.isSome → tu.isSome = tn.isSome →
      _validate_parameters tu tn pu pn =
        some (400, "Both plan-url and plan-name must be provided together")) ∧
    (tu = none → tn = none → pu = none → pn = none →
      _validate_parameters tu tn pu pn =
        some (400, "At least one of test or plan parameters must be provided")) := by
  cases tu <;> cases tn <;> cases pu <;> cases pn <;>
    simp [_validate_parameters]

/-- Witness for C8: `test-url` provided alone is rejected with the
test-pair message. -/
theorem C8_validate_parameters_witness :
    _validate_parameters (some "https://github.com/teemtee/tmt") none
        none none =
      some (400, "Both test-url and test-name must be provided together") :=
  (C8_validate_parameters (some "https://github.com/teemtee/tmt") none
    none none).1 (by decide)

end TmtWeb
